import Mathlib

/-!
Verification of the hand_detection plugin sources.

A shallow embedding of the files under src/windows and
src/example/linux/flutter, followed by theorems about the embedded
functions.  The method-call handler is modelled as a pure function that
takes the probed OS version, the plugin state and the incoming call, and
returns the list of responses it issues together with the resulting
plugin state.  Registration is modelled as explicit state passing on a
registrar value.
-/

/-- Values carried over the standard method codec.  The Windows plugin only
ever constructs a string value; null stands for an absent payload. -/
inductive EncodableValue where
  | null : EncodableValue
  | str (s : String) : EncodableValue
  deriving DecidableEq, Repr

/-- Outcomes the flutter MethodResult interface can deliver: Success,
Error, and NotImplemented.  The handler in the source only ever uses the
first and the last. -/
inductive MethodResult where
  | success (value : EncodableValue) : MethodResult
  | error (code message : String) : MethodResult
  | notImplemented : MethodResult
  deriving DecidableEq, Repr

/-- An incoming method call: a method name and an optional argument
payload. -/
structure MethodCall where
  method_name : String
  arguments : Option EncodableValue
  deriving DecidableEq, Repr

/-- Results of the three VersionHelpers probes the handler performs:
IsWindows10OrGreater, IsWindows8OrGreater, IsWindows7OrGreater. -/
structure OSVersion where
  isWindows10OrGreater : Bool
  isWindows8OrGreater : Bool
  isWindows7OrGreater : Bool
  deriving DecidableEq, Repr

/-- The state of a HandDetectionPlugin instance.  The class declared in
hand_detection_plugin.h has no data members, so the state is empty. -/
structure PluginState where
  deriving DecidableEq, Repr

namespace hand_detection

namespace HandDetectionPlugin

/-- Embedding of HandDetectionPlugin::HandleMethodCall
(src/windows/hand_detection_plugin.cpp, lines 35-52).  Returns the list
of responses issued through the MethodResult object and the plugin state
after the call. -/
def HandleMethodCall (os : OSVersion) (st : PluginState) (method_call : MethodCall) :
    List MethodResult × PluginState :=
  if method_call.method_name = "getPlatformVersion" then
    let version_stream : String := "Windows " ++
      (if os.isWindows10OrGreater then "10+"
       else if os.isWindows8OrGreater then "8"
       else if os.isWindows7OrGreater then "7"
       else "")
    ([MethodResult.success (EncodableValue.str version_stream)], st)
  else
    ([MethodResult.notImplemented], st)

end HandDetectionPlugin

/-- A method-call handler as installed by SetMethodCallHandler: given the
probed OS version and an incoming call, it yields the responses issued
and the state of the captured plugin instance afterwards. -/
def Handler := OSVersion → MethodCall → List MethodResult × PluginState

/-- A Windows plugin registrar: the method channels bound on its
messenger (newest first, as the messenger lets a later handler for the
same channel name replace an earlier one) and the plugin instances whose
ownership it has taken via AddPlugin. -/
structure Registrar where
  channels : List (String × Handler)
  plugins : List PluginState

/-- The handler closure built in RegisterWithRegistrar: it captures the
freshly constructed plugin instance and forwards the call to
HandleMethodCall. -/
def pluginHandler : Handler :=
  fun os call => HandDetectionPlugin.HandleMethodCall os {} call

namespace HandDetectionPlugin

/-- Embedding of HandDetectionPlugin::RegisterWithRegistrar
(src/windows/hand_detection_plugin.cpp, lines 15-30): create a method
channel named "hand_detection" on the registrar messenger, construct a
plugin instance, install the forwarding handler on the channel, and hand
the plugin instance to the registrar. -/
def RegisterWithRegistrar (registrar : Registrar) : Registrar :=
  let plugin : PluginState := {}
  { channels := ("hand_detection", pluginHandler) :: registrar.channels,
    plugins := registrar.plugins ++ [plugin] }

end HandDetectionPlugin

/-- Look up the handler currently bound to a channel name on a registrar
(the most recently installed one wins). -/
def channelHandler (r : Registrar) (name : String) : Option Handler :=
  (r.channels.find? (fun c => c.1 == name)).map Prod.snd

/-- Deliver a method call on a named channel of a registrar: apply the
bound handler, if any, to the call. -/
def dispatch (r : Registrar) (name : String) (os : OSVersion) (call : MethodCall) :
    Option (List MethodResult × PluginState) :=
  (channelHandler r name).map (fun h => h os call)

end hand_detection

/-- An opaque reference to a host plugin registrar, as passed to the
C-ABI registration entry points. -/
structure FlutterDesktopPluginRegistrarRef where
  id : Nat
  deriving DecidableEq, Repr

namespace RegistrationCpp

/-- Embedding of HandDetectionPluginRegisterWithRegistrar as defined in
src/windows/registration.cpp.  The PluginRegistrarManager singleton is
abstracted as the map manager from C registrar references to C++
Windows registrars. -/
def HandDetectionPluginRegisterWithRegistrar
    (manager : FlutterDesktopPluginRegistrarRef → hand_detection.Registrar)
    (registrar : FlutterDesktopPluginRegistrarRef) : hand_detection.Registrar :=
  let cpp_registrar := manager registrar
  hand_detection.HandDetectionPlugin.RegisterWithRegistrar cpp_registrar

end RegistrationCpp

namespace HandDetectionPluginCpp

/-- Embedding of the duplicate definition of
HandDetectionPluginRegisterWithRegistrar at the bottom of
src/windows/hand_detection_plugin.cpp (lines 56-62). -/
def HandDetectionPluginRegisterWithRegistrar
    (manager : FlutterDesktopPluginRegistrarRef → hand_detection.Registrar)
    (registrar : FlutterDesktopPluginRegistrarRef) : hand_detection.Registrar :=
  let cpp_registrar := manager registrar
  hand_detection.HandDetectionPlugin.RegisterWithRegistrar cpp_registrar

end HandDetectionPluginCpp

/-- Embedding of HandDetectionPluginCApiRegisterWithRegistrar
(src/windows/hand_detection_plugin_c_api.cpp, lines 7-12). -/
def HandDetectionPluginCApiRegisterWithRegistrar
    (manager : FlutterDesktopPluginRegistrarRef → hand_detection.Registrar)
    (registrar : FlutterDesktopPluginRegistrarRef) : hand_detection.Registrar :=
  hand_detection.HandDetectionPlugin.RegisterWithRegistrar (manager registrar)

/-- One invocation of a plugin registration entry point performed by the
Linux generated registrant: the name of the entry point called and the
registrar handle it is called with. -/
structure RegistrantCall (R : Type) where
  entry_point : String
  registrar : R
  deriving DecidableEq, Repr

/-- Embedding of fl_register_plugins
(src/example/linux/flutter/generated_plugin_registrant.cc).  The host
registry is abstracted as the lookup function registry from plugin names
to registrar handles; the function returns, in order, the registration
invocations it performs. -/
def fl_register_plugins {R : Type} (registry : String → R) : List (RegistrantCall R) :=
  let camera_desktop_registrar := registry "CameraDesktopPlugin"
  let c1 : RegistrantCall R :=
    ⟨"camera_desktop_plugin_register_with_registrar", camera_desktop_registrar⟩
  let file_selector_linux_registrar := registry "FileSelectorPlugin"
  let c2 : RegistrantCall R :=
    ⟨"file_selector_plugin_register_with_registrar", file_selector_linux_registrar⟩
  let hand_detection_registrar := registry "HandDetectionPlugin"
  let c3 : RegistrantCall R :=
    ⟨"hand_detection_plugin_register_with_registrar", hand_detection_registrar⟩
  [c1, c2, c3]

open hand_detection hand_detection.HandDetectionPlugin

/-- C1: for every call named "getPlatformVersion", HandleMethodCall
returns a single success result whose text value is "Windows " followed
by the tier chosen by probing the OS in descending order: "10+" if
Windows 10 or newer, else "8" if Windows 8 or newer, else "7" if
Windows 7 or newer, else no suffix (the bare string "Windows "). -/
theorem getPlatformVersion_version_tier (os : OSVersion) (st : PluginState)
    (call : MethodCall) (h : call.method_name = "getPlatformVersion") :
    ∃ s : String,
      HandleMethodCall os st call = ([MethodResult.success (EncodableValue.str s)], st) ∧
      (os.isWindows10OrGreater = true → s = "Windows " ++ "10+") ∧
      (os.isWindows10OrGreater = false → os.isWindows8OrGreater = true →
        s = "Windows " ++ "8") ∧
      (os.isWindows10OrGreater = false → os.isWindows8OrGreater = false →
        os.isWindows7OrGreater = true → s = "Windows " ++ "7") ∧
      (os.isWindows10OrGreater = false → os.isWindows8OrGreater = false →
        os.isWindows7OrGreater = false → s = "Windows ") := by
  refine ⟨"Windows " ++
      (if os.isWindows10OrGreater then "10+"
       else if os.isWindows8OrGreater then "8"
       else if os.isWindows7OrGreater then "7"
       else ""), ?_, ?_, ?_, ?_, ?_⟩
  · simp [HandleMethodCall, h]
  · intro h10; simp [h10]
  · intro h10 h8; simp [h10, h8]
  · intro h10 h8 h7; simp [h10, h8, h7]
  · intro h10 h8 h7; simp [h10, h8, h7]

/-- Witness for C1 at the Windows 10 host of the spec scenario: the
result is "Windows 10+". -/
theorem getPlatformVersion_version_tier_witness :
    ∃ s : String,
      HandleMethodCall ⟨true, true, true⟩ {} ⟨"getPlatformVersion", none⟩ =
        ([MethodResult.success (EncodableValue.str s)], {}) ∧
      ((⟨true, true, true⟩ : OSVersion).isWindows10OrGreater = true →
        s = "Windows " ++ "10+") ∧
      ((⟨true, true, true⟩ : OSVersion).isWindows10OrGreater = false →
        (⟨true, true, true⟩ : OSVersion).isWindows8OrGreater = true →
        s = "Windows " ++ "8") ∧
      ((⟨true, true, true⟩ : OSVersion).isWindows10OrGreater = false →
        (⟨true, true, true⟩ : OSVersion).isWindows8OrGreater = false →
        (⟨true, true, true⟩ : OSVersion).isWindows7OrGreater = true →
        s = "Windows " ++ "7") ∧
      ((⟨true, true, true⟩ : OSVersion).isWindows10OrGreater = false →
        (⟨true, true, true⟩ : OSVersion).isWindows8OrGreater = false →
        (⟨true, true, true⟩ : OSVersion).isWindows7OrGreater = false →
        s = "Windows ") :=
  getPlatformVersion_version_tier ⟨true, true, true⟩ {} ⟨"getPlatformVersion", none⟩ rfl

/-- C2: for every call named "getPlatformVersion", whatever the probed
OS version, the handler issues a single success result whose text value
begins with the prefix "Windows ". -/
theorem getPlatformVersion_prefix (os : OSVersion) (st : PluginState)
    (call : MethodCall) (h : call.method_name = "getPlatformVersion") :
    ∃ tier : String,
      (HandleMethodCall os st call).1 =
        [MethodResult.success (EncodableValue.str ("Windows " ++ tier))] := by
  refine ⟨(if os.isWindows10OrGreater then "10+"
       else if os.isWindows8OrGreater then "8"
       else if os.isWindows7OrGreater then "7"
       else ""), ?_⟩
  simp [HandleMethodCall, h]

/-- Witness for C2 at a host older than Windows 7: the text value is
still "Windows " followed by a (here empty) tier. -/
theorem getPlatformVersion_prefix_witness :
    ∃ tier : String,
      (HandleMethodCall ⟨false, false, false⟩ {} ⟨"getPlatformVersion", none⟩).1 =
        [MethodResult.success (EncodableValue.str ("Windows " ++ tier))] :=
  getPlatformVersion_prefix ⟨false, false, false⟩ {} ⟨"getPlatformVersion", none⟩ rfl

/-- C3: for every call whose method name is not "getPlatformVersion",
whatever the argument payload, the handler issues exactly the
NotImplemented response, leaves the plugin state unchanged, and no
success value (hence no text payload) is issued. -/
theorem unknown_method_not_implemented (os : OSVersion) (st : PluginState)
    (call : MethodCall) (h : call.method_name ≠ "getPlatformVersion") :
    HandleMethodCall os st call = ([MethodResult.notImplemented], st) ∧
      ∀ v : EncodableValue,
        MethodResult.success v ∉ (HandleMethodCall os st call).1 := by
  refine ⟨by simp [HandleMethodCall, h], ?_⟩
  intro v
  simp [HandleMethodCall, h]

/-- Witness for C3 at the method name "doSomethingElse" of the spec
scenario. -/
theorem unknown_method_not_implemented_witness :
    HandleMethodCall ⟨true, true, true⟩ {} ⟨"doSomethingElse", none⟩ =
        ([MethodResult.notImplemented], {}) ∧
      ∀ v : EncodableValue,
        MethodResult.success v ∉
          (HandleMethodCall ⟨true, true, true⟩ {} ⟨"doSomethingElse", none⟩).1 :=
  unknown_method_not_implemented ⟨true, true, true⟩ {} ⟨"doSomethingElse", none⟩
    (by decide)

/-- C4: every execution of HandleMethodCall issues exactly one response,
and that response is either a success carrying a text value or the
NotImplemented response; no error response is reachable. -/
theorem handle_method_call_total (os : OSVersion) (st : PluginState)
    (call : MethodCall) :
    (∃ s : String, (HandleMethodCall os st call).1 =
        [MethodResult.success (EncodableValue.str s)]) ∨
      (HandleMethodCall os st call).1 = [MethodResult.notImplemented] := by
  by_cases h : call.method_name = "getPlatformVersion"
  · refine Or.inl ⟨"Windows " ++
      (if os.isWindows10OrGreater then "10+"
       else if os.isWindows8OrGreater then "8"
       else if os.isWindows7OrGreater then "7"
       else ""), ?_⟩
    simp [HandleMethodCall, h]
  · exact Or.inr (by simp [HandleMethodCall, h])

/-- C5: the outcome of HandleMethodCall does not depend on the argument
payload: two calls with the same method name, OS version and plugin
state but different (possibly absent) arguments yield identical
results. -/
theorem result_independent_of_arguments (os : OSVersion) (st : PluginState)
    (name : String) (args1 args2 : Option EncodableValue) :
    HandleMethodCall os st ⟨name, args1⟩ = HandleMethodCall os st ⟨name, args2⟩ := by
  by_cases h : name = "getPlatformVersion" <;> simp [HandleMethodCall, h]

/-- C6: HandleMethodCall is idempotent: it leaves the plugin state
unchanged, and a second invocation from the state left by the first
yields the same result as the first. -/
theorem handle_method_call_idempotent (os : OSVersion) (st : PluginState)
    (call : MethodCall) :
    (HandleMethodCall os st call).2 = st ∧
      HandleMethodCall os (HandleMethodCall os st call).2 call =
        HandleMethodCall os st call := by
  by_cases h : call.method_name = "getPlatformVersion" <;>
    simp [HandleMethodCall, h]

/-- After any registration, the handler bound to the channel name
"hand_detection" is the forwarding handler built by
RegisterWithRegistrar. -/
theorem channelHandler_after_register (r : Registrar) :
    channelHandler (RegisterWithRegistrar r) "hand_detection" = some pluginHandler := by
  simp [channelHandler, RegisterWithRegistrar, List.find?]

/-- C7: registering a second time on the same registrar binds the same
channel name "hand_detection" to a handler with the same dispatch
behaviour, so the method contract is unchanged by re-registration. -/
theorem register_idempotent_contract (r : Registrar) (os : OSVersion)
    (call : MethodCall) :
    channelHandler (RegisterWithRegistrar (RegisterWithRegistrar r)) "hand_detection" =
        channelHandler (RegisterWithRegistrar r) "hand_detection" ∧
      dispatch (RegisterWithRegistrar (RegisterWithRegistrar r)) "hand_detection" os call =
        dispatch (RegisterWithRegistrar r) "hand_detection" os call := by
  constructor
  · rw [channelHandler_after_register, channelHandler_after_register]
  · unfold dispatch
    rw [channelHandler_after_register, channelHandler_after_register]

/-- C8: the interface constants are fixed: RegisterWithRegistrar binds
exactly the channel name "hand_detection", and the handler delivers a
success carrying a text value exactly for the method name
"getPlatformVersion", with or without arguments. -/
theorem interface_constants :
    (∀ r : Registrar,
      (RegisterWithRegistrar r).channels.head?.map Prod.fst = some "hand_detection") ∧
    ∀ (os : OSVersion) (st : PluginState) (name : String)
      (args : Option EncodableValue),
      (∃ s : String, (HandleMethodCall os st ⟨name, args⟩).1 =
          [MethodResult.success (EncodableValue.str s)]) ↔
        name = "getPlatformVersion" := by
  constructor
  · intro r
    simp [RegisterWithRegistrar]
  · intro os st name args
    constructor
    · intro ⟨s, hs⟩
      by_contra h
      simp [HandleMethodCall, h] at hs
    · intro h
      refine ⟨"Windows " ++
        (if os.isWindows10OrGreater then "10+"
         else if os.isWindows8OrGreater then "8"
         else if os.isWindows7OrGreater then "7"
         else ""), ?_⟩
      simp [HandleMethodCall, h]

/-- C9: the Linux registrant, in order, looks up the registrar handle of
each of the three bundled plugins from the host registry and invokes
that plugin registration entry point exactly once, performing no other
action. -/
theorem fl_register_plugins_enumerates {R : Type} (registry : String → R) :
    fl_register_plugins registry =
        [⟨"camera_desktop_plugin_register_with_registrar",
            registry "CameraDesktopPlugin"⟩,
          ⟨"file_selector_plugin_register_with_registrar",
            registry "FileSelectorPlugin"⟩,
          ⟨"hand_detection_plugin_register_with_registrar",
            registry "HandDetectionPlugin"⟩] ∧
      ((fl_register_plugins registry).map RegistrantCall.entry_point).count
          "camera_desktop_plugin_register_with_registrar" = 1 ∧
      ((fl_register_plugins registry).map RegistrantCall.entry_point).count
          "file_selector_plugin_register_with_registrar" = 1 ∧
      ((fl_register_plugins registry).map RegistrantCall.entry_point).count
          "hand_detection_plugin_register_with_registrar" = 1 := by
  refine ⟨rfl, ?_, ?_, ?_⟩ <;> simp [fl_register_plugins, List.count_cons]

/-- C10: the three C-ABI registration entry points are behaviourally
equivalent: for every manager state and registrar reference each
performs the same action, obtaining the C++ Windows registrar from the
PluginRegistrarManager and calling
HandDetectionPlugin::RegisterWithRegistrar on it. -/
theorem registration_entry_points_equivalent
    (manager : FlutterDesktopPluginRegistrarRef → Registrar)
    (registrar : FlutterDesktopPluginRegistrarRef) :
    RegistrationCpp.HandDetectionPluginRegisterWithRegistrar manager registrar =
        HandDetectionPluginCpp.HandDetectionPluginRegisterWithRegistrar manager
          registrar ∧
      HandDetectionPluginCApiRegisterWithRegistrar manager registrar =
        HandDetectionPluginCpp.HandDetectionPluginRegisterWithRegistrar manager
          registrar ∧
      RegistrationCpp.HandDetectionPluginRegisterWithRegistrar manager registrar =
        RegisterWithRegistrar (manager registrar) :=
  ⟨rfl, rfl, rfl⟩
